import Mathlib

/-!
Verification of the ShifAI health-assistant core: the triage classifier
(`client/src/lib/triage.ts`), the chat response generator with its local
fallback chain (`server/ai-service.ts` variants), the clinical report
synthesizer with its deterministic fallback, and the chat route's
disclaimer attachment (`server/routes.ts`).

The TypeScript is embedded shallowly: strings are Lean `String`s, and the
JavaScript string primitives used by the source (`toLowerCase`, `includes`,
`trim`, `split`, `startsWith`, `||` on strings) are modelled as executable
functions over the character list `String.data`, so every definition
evaluates by `decide`.
-/

namespace Shifai

/-- Whitespace for the purposes of JS `trim` and the `\s` regex class, as it
occurs in this repository's data: space, tab, carriage return, line feed. -/
def isWsChar (c : Char) : Bool :=
  c == ' ' || c == '\t' || c == '\n' || c == '\r'

/-- JS `String.prototype.toLowerCase` restricted to the alphabets this
repository matches on: ASCII `A`-`Z` and the Latin-1 uppercase letters
`À`-`Þ` (except `×`) map down by 32; every other character (lowercase
Latin, accented lowercase, Arabic, punctuation) is unchanged, as in JS. -/
def jsLowerChar (c : Char) : Char :=
  if 65 ≤ c.toNat ∧ c.toNat ≤ 90 then Char.ofNat (c.toNat + 32)
  else if 192 ≤ c.toNat ∧ c.toNat ≤ 222 ∧ c.toNat ≠ 215 then Char.ofNat (c.toNat + 32)
  else c

/-- `text.toLowerCase()` of the source. -/
def jsToLower (s : String) : String :=
  String.mk (s.data.map jsLowerChar)

/-- Decidable prefix test on character lists. -/
def isPref : List Char → List Char → Bool
  | [], _ => true
  | _ :: _, [] => false
  | c :: cs, d :: ds => c == d && isPref cs ds

/-- Does `needle` occur as a contiguous run inside `hay`? -/
def subOccurs (needle : List Char) : List Char → Bool
  | [] => needle.isEmpty
  | c :: t => isPref needle (c :: t) || subOccurs needle t

/-- JS `hay.includes(needle)`: contiguous substring containment. -/
def strIncludes (hay needle : String) : Bool :=
  subOccurs needle.data hay.data

/-- JS `s.startsWith(p)`. -/
def strStartsWith (s p : String) : Bool :=
  isPref p.data s.data

/-- JS `s.trim()`: strip leading and trailing whitespace. -/
def jsTrim (s : String) : String :=
  String.mk (((s.data.dropWhile isWsChar).reverse.dropWhile isWsChar).reverse)

/-- JS `a || b` on strings: the empty string is falsy. Also used to model
`dict[key] || dflt` where a missing key contributes the empty string. -/
def jsOrStr (a b : String) : String :=
  if a = "" then b else a

/-- JS `name.split(' ')[0]`: the characters before the first space. -/
def firstWord (s : String) : String :=
  String.mk (s.data.takeWhile (fun c => !(c == ' ')))

/-- JS `s.split(sep)[0]` for a non-empty separator: the characters before
the first occurrence of `sep`. -/
def beforeFirst (sep : String) (s : String) : String :=
  String.mk (go sep.data s.data)
where
  go (sep : List Char) : List Char → List Char
    | [] => []
    | c :: t => if isPref sep (c :: t) then [] else c :: go sep t

/-- JS `{en: …, fr: …, ar: …}[lang] || fallback-to-en`, for a `lang` that is
an arbitrary string: an unknown key yields `undefined` (here the empty
string), which falls through to the English entry. -/
def langPick (lang en fr ar : String) : String :=
  jsOrStr (if lang == "en" then en else if lang == "fr" then fr else if lang == "ar" then ar else "") en

/-! ## TriageClassifier — `client/src/lib/triage.ts` -/

/-- The `Language` union type of `client/src/lib/translations.ts`
(`'en' | 'fr' | 'ar'`, the three options of the language toggle). -/
inductive Language where
  | en
  | fr
  | ar
deriving DecidableEq

/-- The three triage levels the classifier's message table is keyed by. -/
inductive TriLevel where
  | urgent
  | monitor
  | safe
deriving DecidableEq

/-- `TriageResult` of `@shared/schema` as used by `analyzeSymptoms`. -/
structure TriageResult where
  level : String
  color : String
  title : String
  description : String
  advice : String
deriving DecidableEq

/-- The title/description/advice record for one (language, level) cell. -/
structure LevelMessages where
  title : String
  description : String
  advice : String
deriving DecidableEq

/-- `urgentKeywords` of `triage.ts` lines 8-18, in source order. -/
def urgentKeywords : List String :=
  ["chest pain", "douleur thoracique", "ألم في الصدر", "وجع بقلبي", "وجع القلب",
   "shortness of breath", "essoufflement", "ضيق في التنفس",
   "severe headache", "mal de tête sévère", "صداع شديد",
   "unconscious", "inconscient", "فقدان الوعي",
   "bleeding", "saignement", "نزيف",
   "heart attack", "crise cardiaque", "نوبة قلبية",
   "stroke", "avc", "سكتة دماغية",
   "difficulty breathing", "difficulté à respirer", "صعوبة في التنفس",
   "severe pain", "douleur sévère", "ألم شديد", "وجع شديد"]

/-- `monitorKeywords` of `triage.ts` lines 21-30, in source order. -/
def monitorKeywords : List String :=
  ["fever", "fièvre", "حمى",
   "persistent", "persistant", "مستمر",
   "vomiting", "vomissement", "قيء",
   "severe", "sévère", "شديد", "كتير", "أوي",
   "pain", "douleur", "ألم", "وجع",
   "nausea", "nausée", "غثيان",
   "dizziness", "vertige", "دوخة",
   "stomach pain", "mal de ventre", "وجع بطن", "ألم في البطن"]

/-- The inner `getLocalizedMessages` table of `triage.ts` lines 33-88. The
`messages[language]?.[level] || messages.en[level]` fallback is dead code for
the three-valued `Language` type, so the table is total by `match`. -/
def getLocalizedMessages (language : Language) (level : TriLevel) : LevelMessages :=
  match language, level with
  | .en, .urgent =>
      ⟨"Urgent - Seek Immediate Care",
       "Your symptoms require immediate medical attention",
       "Please visit the nearest emergency room or call emergency services immediately. Do not delay seeking medical care."⟩
  | .en, .monitor =>
      ⟨"Monitor - Schedule an Appointment",
       "Your symptoms should be evaluated by a healthcare provider",
       "Consider scheduling an appointment with your doctor within the next few days. Monitor your symptoms and seek immediate care if they worsen."⟩
  | .en, .safe =>
      ⟨"Safe - Self-Care Recommended",
       "Your symptoms appear to be minor",
       "Continue with self-care measures such as rest, hydration, and over-the-counter medications as appropriate. If symptoms persist or worsen, consult a healthcare provider."⟩
  | .fr, .urgent =>
      ⟨"Urgent - Consultez Immédiatement",
       "Vos symptômes nécessitent une attention médicale immédiate",
       "Veuillez vous rendre aux urgences les plus proches ou appeler les services d'urgence immédiatement. Ne retardez pas la consultation médicale."⟩
  | .fr, .monitor =>
      ⟨"Surveiller - Prendre Rendez-vous",
       "Vos symptômes doivent être évalués par un professionnel de santé",
       "Envisagez de prendre rendez-vous avec votre médecin dans les prochains jours. Surveillez vos symptômes et consultez immédiatement si ils s'aggravent."⟩
  | .fr, .safe =>
      ⟨"Sûr - Auto-soins Recommandés",
       "Vos symptômes semblent être mineurs",
       "Continuez avec des mesures d'auto-soins comme le repos, l'hydratation et des médicaments en vente libre si approprié. Si les symptômes persistent ou s'aggravent, consultez un professionnel de santé."⟩
  | .ar, .urgent =>
      ⟨"عاجل - اطلب العناية الطبية فوراً",
       "أعراضك تتطلب عناية طبية عاجلة",
       "يرجى زيارة أقرب قسم طوارئ أو الاتصال بخدمات الطوارئ فوراً. لا تؤخر طلب الرعاية الطبية."⟩
  | .ar, .monitor =>
      ⟨"مراقبة - احجز موعداً",
       "أعراضك تحتاج إلى تقييم من مقدم رعاية صحية",
       "فكر في حجز موعد مع طبيبك خلال الأيام القليلة القادمة. راقب أعراضك واطلب العناية الفورية إذا ازدادت سوءاً."⟩
  | .ar, .safe =>
      ⟨"آمن - العناية الذاتية موصى بها",
       "أعراضك تبدو طفيفة",
       "استمر في إجراءات العناية الذاتية مثل الراحة والترطيب والأدوية المتاحة دون وصفة طبية حسب الحاجة. إذا استمرت الأعراض أو ازدادت سوءاً، استشر مقدم رعاية صحية."⟩

/-- `analyzeSymptoms` of `triage.ts` lines 4-123: lowercase the text, check
the urgent keywords, then the monitor keywords, else safe. -/
def analyzeSymptoms (symptoms : String) (language : Language) : TriageResult :=
  let text := jsToLower symptoms
  if urgentKeywords.any (fun keyword => strIncludes text keyword) then
    let msg := getLocalizedMessages language TriLevel.urgent
    { level := "urgent", color := "red",
      title := msg.title, description := msg.description, advice := msg.advice }
  else if monitorKeywords.any (fun keyword => strIncludes text keyword) then
    let msg := getLocalizedMessages language TriLevel.monitor
    { level := "monitor", color := "yellow",
      title := msg.title, description := msg.description, advice := msg.advice }
  else
    let msg := getLocalizedMessages language TriLevel.safe
    { level := "safe", color := "green",
      title := msg.title, description := msg.description, advice := msg.advice }

/-! ## Claims about the triage classifier -/

/-- C1. Any text whose lowercasing contains at least one urgent-tier keyword
is classified `urgent`, regardless of which monitor-tier keywords also occur:
the urgent check precedes and overrides the monitor check. -/
theorem urgent_keyword_forces_urgent (text : String) (language : Language)
    (h : ∃ kw ∈ urgentKeywords, strIncludes (jsToLower text) kw = true) :
    (analyzeSymptoms text language).level = "urgent" := by
  have hb : (urgentKeywords.any (fun keyword => strIncludes (jsToLower text) keyword)) = true := by
    rw [List.any_eq_true]
    obtain ⟨kw, hmem, hinc⟩ := h
    exact ⟨kw, hmem, hinc⟩
  unfold analyzeSymptoms
  simp only [hb, if_true]

theorem urgent_keyword_forces_urgent_witness :
    (∃ kw ∈ urgentKeywords, strIncludes (jsToLower "Bleeding and fever") kw = true) ∧
      (∃ kw ∈ monitorKeywords, strIncludes (jsToLower "Bleeding and fever") kw = true) ∧
      (analyzeSymptoms "Bleeding and fever" Language.en).level = "urgent" :=
  ⟨⟨"bleeding", by decide, by decide⟩, ⟨"fever", by decide, by decide⟩,
    urgent_keyword_forces_urgent "Bleeding and fever" Language.en ⟨"bleeding", by decide, by decide⟩⟩

/-- C2 counterexample. The claim says `classify("I have a mild headache",
"en")` yields level `monitor` and color `yellow`; it does not. The monitor
list has a `pain` keyword but no `headache` keyword, and the word
"headache" does not contain the substring "pain", so no monitor keyword
occurs in this text and the classifier falls through to `safe`. -/
theorem mild_headache_is_not_monitor :
    ¬ ((analyzeSymptoms "I have a mild headache" Language.en).level = "monitor" ∧
       (analyzeSymptoms "I have a mild headache" Language.en).color = "yellow") := by
  decide

/-- C2 amended. `classify("I have a mild headache", "en")` returns level
`safe` and color `green`: no urgent keyword and no monitor keyword occurs in
the lowercased text (in particular `headache` is not a keyword and `pain`
does not occur in it). -/
theorem mild_headache_is_safe :
    (analyzeSymptoms "I have a mild headache" Language.en).level = "safe" ∧
      (analyzeSymptoms "I have a mild headache" Language.en).color = "green" ∧
      monitorKeywords.all (fun kw => !(strIncludes (jsToLower "I have a mild headache") kw)) = true ∧
      urgentKeywords.all (fun kw => !(strIncludes (jsToLower "I have a mild headache") kw)) = true := by
  decide

/-- C7. Text in which no urgent-tier and no monitor-tier keyword occurs —
including the empty string and whitespace-only strings — is classified
`safe`. -/
theorem no_keyword_means_safe (text : String) (language : Language)
    (hu : ∀ kw ∈ urgentKeywords, strIncludes (jsToLower text) kw = false)
    (hm : ∀ kw ∈ monitorKeywords, strIncludes (jsToLower text) kw = false) :
    (analyzeSymptoms text language).level = "safe" := by
  have hu' : (urgentKeywords.any (fun keyword => strIncludes (jsToLower text) keyword)) = false := by
    rw [List.any_eq_false]
    intro kw hkw
    simp [hu kw hkw]
  have hm' : (monitorKeywords.any (fun keyword => strIncludes (jsToLower text) keyword)) = false := by
    rw [List.any_eq_false]
    intro kw hkw
    simp [hm kw hkw]
  unfold analyzeSymptoms
  simp [hu', hm']

theorem no_keyword_means_safe_witness :
    (analyzeSymptoms "" Language.en).level = "safe" ∧
      (analyzeSymptoms "   " Language.ar).level = "safe" :=
  ⟨no_keyword_means_safe "" Language.en (by decide) (by decide),
   no_keyword_means_safe "   " Language.ar (by decide) (by decide)⟩

/-- C8. The classifier is deterministic (equal arguments give equal
results — it is a pure function of its inputs), and level and color are in
lock-step: every result is urgent/red, monitor/yellow or safe/green. -/
theorem analyzeSymptoms_deterministic_lockstep (text : String) (language : Language) :
    analyzeSymptoms text language = analyzeSymptoms text language ∧
      (((analyzeSymptoms text language).level = "urgent" ∧
          (analyzeSymptoms text language).color = "red") ∨
       ((analyzeSymptoms text language).level = "monitor" ∧
          (analyzeSymptoms text language).color = "yellow") ∨
       ((analyzeSymptoms text language).level = "safe" ∧
          (analyzeSymptoms text language).color = "green")) := by
  refine ⟨rfl, ?_⟩
  unfold analyzeSymptoms
  by_cases hu : (urgentKeywords.any (fun keyword => strIncludes (jsToLower text) keyword)) = true
  · simp [hu]
  · simp only [Bool.not_eq_true] at hu
    by_cases hm : (monitorKeywords.any (fun keyword => strIncludes (jsToLower text) keyword)) = true
    · simp [hu, hm]
    · simp only [Bool.not_eq_true] at hm
      simp [hu, hm]

/-! ## ResponseGenerator — `generateChatResponse` (the `ai-service` variant of
`src/unnamed/part_000`, lines 157-260)

The remote text-generation call is abstracted as a `RemoteOutcome`: the
`try` block's `hf.textGeneration` either throws (`failure`, taken by the
`catch` branch) or resolves with an optional `generated_text` (`success`).
Prompt composition (`buildChatPrompt`) only feeds the abstracted remote call
and is total, so it is not modelled. -/

/-- One entry of `recentSymptoms` / one stored symptom entry:
`{symptoms, triageLevel, timestamp}`. Timestamps are abstract. -/
structure SymptomRecord where
  symptoms : String
  triageLevel : String
  timestamp : Nat
deriving DecidableEq

/-- The optional `profile` object of `PatientContext`. -/
structure PatientProfile where
  name : String
  age : Option Nat
  gender : Option String
  medicalConditions : List String
  allergies : List String
  medications : List String
deriving DecidableEq

/-- `PatientContext` of the ai-service module. -/
structure PatientContext where
  uid : String
  name : String
  recentSymptoms : List SymptomRecord
  language : String
  profile : Option PatientProfile
deriving DecidableEq

/-- `ChatMessage` of the ai-service module. -/
structure ChatMessage where
  id : String
  role : String
  content : String
  timestamp : Nat
  language : String
deriving DecidableEq

/-- Outcome of the remote `hf.textGeneration` call: the promise rejects
(`failure`), or resolves with an optional `generated_text`. -/
inductive RemoteOutcome where
  | failure
  | success (generatedText : Option String)

/-- The reply substituted when the cleaned remote output is empty. -/
def defaultChatReply : String :=
  "I'm here to help with your health questions. Could you tell me more about what you're experiencing?"

/-- Lines 180-182: strip a leading `ShifAI:` or `Assistant:` label (the
regex `^(ShifAI:|Assistant:)\s*`, guarded by the case-sensitive
`startsWith` checks) together with the whitespace after it. -/
def cleanupGenerated (t : String) : String :=
  if strStartsWith t "ShifAI:" then String.mk ((t.data.drop 7).dropWhile isWsChar)
  else if strStartsWith t "Assistant:" then String.mk ((t.data.drop 10).dropWhile isWsChar)
  else t

/-- Lines 192-221: the personalized greeting of the local fallback, with the
natural-language summary of the most recent symptom entry. -/
def fallbackGreeting (context : PatientContext) : String :=
  let userName := firstWord context.name
  let symptomContext :=
    match context.recentSymptoms with
    | [] => ""
    | first :: _ =>
      let symptomText := jsToLower first.symptoms
      if strIncludes symptomText "pain" && strIncludes symptomText "back" then
        " I see you've been experiencing back pain recently."
      else if strIncludes symptomText "pain" && strIncludes symptomText "foot" then
        " I see you've been dealing with foot pain lately."
      else if strIncludes symptomText "headache" || strIncludes symptomText "head" then
        " I notice you've been having headaches."
      else if strIncludes symptomText "stomach" || strIncludes symptomText "nausea" then
        " I see you've been experiencing stomach issues."
      else
        let cleanSymptom :=
          if 40 < first.symptoms.length then "some health concerns" else jsToLower first.symptoms
        " I see you've been dealing with " ++ cleanSymptom ++ "."
  langPick context.language
    ("Hi " ++ userName ++ "! I'm ShifAI, your personal health assistant." ++ symptomContext ++
      " How can I help you today?")
    ("Salut " ++ userName ++ "! Je suis ShifAI, votre assistant santé personnel." ++ symptomContext ++
      " Comment puis-je vous aider?")
    ("مرحباً " ++ userName ++ "! أنا شفاء الذكي، مساعدك الصحي الشخصي." ++ symptomContext ++
      " كيف يمكنني مساعدتك؟")

/-- Lines 225-235: the pain-management branch of the local fallback. -/
def fallbackPainAdvice (context : PatientContext) : String :=
  let hasRecentPain := context.recentSymptoms.any (fun s => strIncludes (jsToLower s.symptoms) "pain")
  let painContext := if hasRecentPain then " Given your recent pain history, " else " "
  langPick context.language
    ("For pain management," ++ painContext ++
      "I recommend starting with ibuprofen 400mg every 6-8 hours with food, or acetaminophen 500mg every 4-6 hours. Apply heat/cold therapy, gentle stretching, and ensure adequate rest. If pain persists beyond 3 days or worsens, consider consulting a doctor.")
    ("Pour la gestion de la douleur," ++ painContext ++
      "je recommande de commencer par ibuprofène 400mg toutes les 6-8 heures avec de la nourriture, ou paracétamol 500mg toutes les 4-6 heures. Appliquez la thermothérapie, des étirements doux et assurez-vous d'un repos adéquat.")
    ("لإدارة الألم،" ++ painContext ++
      "أنصح بالبدء بإيبوبروفين 400 ملغ كل 6-8 ساعات مع الطعام، أو أسيتامينوفين 500 ملغ كل 4-6 ساعات. اطبق العلاج الحراري والتمدد اللطيف واحصل على راحة كافية.")

/-- Lines 238-245: the medication-question branch of the local fallback. -/
def fallbackMedAdvice (context : PatientContext) : String :=
  let userName := firstWord context.name
  langPick context.language
    (userName ++ ", I can recommend specific medications based on your symptoms. For general wellness, consider: multivitamins, omega-3 supplements, or probiotics. For specific conditions, I can suggest targeted treatments. What specific issue would you like medication advice for?")
    (userName ++ ", je peux recommander des médicaments spécifiques basés sur vos symptômes. Pour le bien-être général, considérez: multivitamines, suppléments d'oméga-3, ou probiotiques. Pour des conditions spécifiques, je peux suggérer des traitements ciblés.")
    (userName ++ "، يمكنني أن أوصي بأدوية محددة بناءً على أعراضك. للعافية العامة، فكر في: الفيتامينات المتعددة، مكملات أوميغا-3، أو البروبيوتيك. للحالات المحددة، يمكنني اقتراح علاجات مستهدفة.")

/-- Lines 247-258: the general personalized fallback. -/
def fallbackGeneral (context : PatientContext) : String :=
  let userName := firstWord context.name
  let hasSymptomHistory := !context.recentSymptoms.isEmpty
  let contextMessage :=
    if hasSymptomHistory then
      " Based on your history of " ++
        String.intercalate ", " (context.recentSymptoms.map (fun s => s.symptoms)) ++ ", "
    else " "
  langPick context.language
    (userName ++ ", I'm here to help with any health question you have." ++ contextMessage ++
      "Ask me about medications, treatments, prevention strategies, or any health concern. I have access to your complete medical history to give you personalized advice.")
    (userName ++ ", je suis là pour vous aider avec toute question de santé." ++ contextMessage ++
      "Demandez-moi des médicaments, des traitements, des stratégies de prévention, ou toute préoccupation de santé.")
    (userName ++ "، أنا هنا لمساعدتك في أي سؤال صحي." ++ contextMessage ++
      "اسألني عن الأدوية أو العلاجات أو استراتيجيات الوقاية أو أي مخاوف صحية.")

/-- Lines 188-258: the `catch` branch — intent matching by raw substring
containment on the lowercased message, greeting first, then pain, then
medication, else the general fallback. -/
def localChatFallback (message : String) (context : PatientContext) : String :=
  let lowerMessage := jsToLower message
  if strIncludes lowerMessage "hi" || strIncludes lowerMessage "hello" ||
      strIncludes lowerMessage "hey" then
    fallbackGreeting context
  else if strIncludes lowerMessage "pain" || strIncludes lowerMessage "hurt" then
    fallbackPainAdvice context
  else if strIncludes lowerMessage "medication" || strIncludes lowerMessage "medicine" ||
      strIncludes lowerMessage "drug" then
    fallbackMedAdvice context
  else
    fallbackGeneral context

/-- `generateChatResponse` of `src/unnamed/part_000`, lines 157-260: on
remote success, trim the optional output, strip a leading persona label, and
substitute `defaultChatReply` when the result is empty; on remote failure,
run the local pattern-matched fallback. -/
def generateChatResponse (remote : RemoteOutcome) (message : String)
    (context : PatientContext) (_chatHistory : List ChatMessage) : String :=
  match remote with
  | .success generated =>
      let generatedText := (generated.map jsTrim).getD ""
      let generatedText := cleanupGenerated generatedText
      jsOrStr generatedText defaultChatReply
  | .failure => localChatFallback message context

/-! ## Helper lemmas on string emptiness and containment -/

theorem strData_append (s t : String) : (s ++ t).data = s.data ++ t.data := rfl

theorem append_ne_left {s t : String} (h : s ≠ "") : s ++ t ≠ "" := by
  intro he
  have hd : s.data ++ t.data = ([] : List Char) := by
    have h2 := congrArg String.data he
    rw [strData_append] at h2
    exact h2
  apply h
  have hs := (List.append_eq_nil.mp hd).1
  cases s with
  | mk d =>
    simp only at hs
    rw [hs]

theorem append_ne_right {s t : String} (h : t ≠ "") : s ++ t ≠ "" := by
  intro he
  have hd : s.data ++ t.data = ([] : List Char) := by
    have h2 := congrArg String.data he
    rw [strData_append] at h2
    exact h2
  apply h
  have ht := (List.append_eq_nil.mp hd).2
  cases t with
  | mk d =>
    simp only at ht
    rw [ht]

theorem jsOrStr_ne {a b : String} (hb : b ≠ "") : jsOrStr a b ≠ "" := by
  unfold jsOrStr
  split
  · exact hb
  · assumption

theorem langPick_ne {lang en fr ar : String} (he : en ≠ "") : langPick lang en fr ar ≠ "" :=
  jsOrStr_ne he

theorem subOccurs_append_of_right {n t : List Char} (s : List Char)
    (h : subOccurs n t = true) : subOccurs n (s ++ t) = true := by
  induction s with
  | nil => simpa using h
  | cons c cs ih => simp [subOccurs, ih]

theorem strIncludes_append_right {t n : String} (s : String)
    (h : strIncludes t n = true) : strIncludes (s ++ t) n = true := by
  show subOccurs n.data ((s ++ t).data) = true
  rw [strData_append]
  exact subOccurs_append_of_right s.data h

/-! ## Claims about the chat response generator -/

theorem fallbackGreeting_ne (context : PatientContext) : fallbackGreeting context ≠ "" := by
  unfold fallbackGreeting
  exact langPick_ne (append_ne_left (append_ne_left (append_ne_left (append_ne_left (by decide)))))

theorem fallbackPainAdvice_ne (context : PatientContext) : fallbackPainAdvice context ≠ "" := by
  unfold fallbackPainAdvice
  exact langPick_ne (append_ne_left (append_ne_left (by decide)))

theorem fallbackMedAdvice_ne (context : PatientContext) : fallbackMedAdvice context ≠ "" := by
  unfold fallbackMedAdvice
  exact langPick_ne (append_ne_right (by decide))

theorem fallbackGeneral_ne (context : PatientContext) : fallbackGeneral context ≠ "" := by
  unfold fallbackGeneral
  exact langPick_ne (append_ne_left (append_ne_left (append_ne_right (by decide))))

theorem localChatFallback_ne (message : String) (context : PatientContext) :
    localChatFallback message context ≠ "" := by
  unfold localChatFallback
  dsimp only
  split
  · exact fallbackGreeting_ne context
  · split
    · exact fallbackPainAdvice_ne context
    · split
      · exact fallbackMedAdvice_ne context
      · exact fallbackGeneral_ne context

/-- C3. `generateChatResponse` is a total function of the remote outcome and
its arguments (the `catch` branch absorbs every remote rejection, so the
promise never rejects) and never returns the empty string: an empty or
missing remote output is replaced by `defaultChatReply`, and each local
fallback branch returns a string with non-empty literal text. This holds for
every message, context (including an empty name, no profile and no recent
symptoms) and history. -/
theorem generateChatResponse_never_empty (remote : RemoteOutcome) (message : String)
    (context : PatientContext) (chatHistory : List ChatMessage) :
    generateChatResponse remote message context chatHistory ≠ "" := by
  cases remote with
  | success generated => exact jsOrStr_ne (by decide)
  | failure => exact localChatFallback_ne message context

/-- C10. In the local fallback, intent matching is raw substring containment
on the lowercased message and the greeting branch is checked first: any
message whose lowercased text contains the substring "hi" anywhere — also
inside a longer word such as "this" — gets the greeting reply, never the
pain, medication or general branches. -/
theorem hi_substring_takes_greeting_branch (message : String) (context : PatientContext)
    (history : List ChatMessage)
    (h : strIncludes (jsToLower message) "hi" = true) :
    generateChatResponse RemoteOutcome.failure message context history =
      fallbackGreeting context := by
  show localChatFallback message context = fallbackGreeting context
  unfold localChatFallback
  simp only [h, Bool.true_or, if_true]

theorem hi_substring_takes_greeting_branch_witness :
    strIncludes (jsToLower "Why is this pain medication not working?") "hi" = true ∧
      generateChatResponse RemoteOutcome.failure "Why is this pain medication not working?"
          ⟨"u1", "Sam Doe", [⟨"back pain", "monitor", 0⟩], "en", none⟩ [] =
        fallbackGreeting ⟨"u1", "Sam Doe", [⟨"back pain", "monitor", 0⟩], "en", none⟩ :=
  ⟨by decide,
   hi_substring_takes_greeting_branch "Why is this pain medication not working?"
     ⟨"u1", "Sam Doe", [⟨"back pain", "monitor", 0⟩], "en", none⟩ [] (by decide)⟩

/-! ## Disclaimer attachment — `server/routes.ts`, `/api/chat`, lines 500-511 -/

/-- The `isHealthQuestion` test of the chat route: the lowercased original
message is scanned for eight trigger terms. The produced response text is
not examined. -/
def isHealthQuestion (message : String) : Bool :=
  let lowerMessage := jsToLower message
  strIncludes lowerMessage "pain" || strIncludes lowerMessage "medication" ||
    strIncludes lowerMessage "treatment" || strIncludes lowerMessage "symptom" ||
    strIncludes lowerMessage "sick" || strIncludes lowerMessage "hurt" ||
    strIncludes lowerMessage "doctor" || strIncludes lowerMessage "medicine"

/-- The text appended to health questions (routes.ts line 508). -/
def chatDisclaimer : String :=
  "\n\n💡 This is AI-generated guidance and not a substitute for professional medical diagnosis."

/-- Lines 500-509: the final response of the `/api/chat` route, given the
response text produced by `generateChatResponse`. -/
def chatFinalResponse (message response : String) : String :=
  if isHealthQuestion message then response ++ chatDisclaimer else response

/-- C6 counterexample. The claim's trigger condition — "the original message
or the produced text contains one of the terms" — is wrong about the
produced text: for the message "hi" with a produced reply containing
"doctor", the route appends no disclaimer, because only the original message
is scanned. -/
theorem disclaimer_ignores_produced_text :
    strIncludes (jsToLower "Please consult a doctor.") "doctor" = true ∧
      chatFinalResponse "hi" "Please consult a doctor." = "Please consult a doctor." ∧
      strIncludes (chatFinalResponse "hi" "Please consult a doctor.") "💡" = false := by
  decide

/-- C6 amended. The disclaimer is decided once, after the response text is
produced, by scanning only the lowercased original message for the terms
pain, medication, treatment, symptom, sick, hurt, doctor, medicine: when one
occurs, the final output contains the disclaimer marker; when none occurs,
the response is returned unchanged (so in particular
"I have a headache, what medication should I take?" gets the marker and
"hi" does not). -/
theorem disclaimer_triggered_by_message_terms (message response : String) :
    (isHealthQuestion message = true →
      strIncludes (chatFinalResponse message response)
        "💡 This is AI-generated guidance and not a substitute for professional medical diagnosis." = true) ∧
      (isHealthQuestion message = false → chatFinalResponse message response = response) := by
  constructor
  · intro h
    unfold chatFinalResponse
    rw [h, if_pos rfl]
    exact strIncludes_append_right response (by decide)
  · intro h
    unfold chatFinalResponse
    rw [h]
    simp

theorem disclaimer_triggered_by_message_terms_witness :
    strIncludes
        (chatFinalResponse "I have a headache, what medication should I take?" "Try rest.")
        "💡 This is AI-generated guidance and not a substitute for professional medical diagnosis." = true ∧
      chatFinalResponse "hi" "Hello!" = "Hello!" :=
  ⟨(disclaimer_triggered_by_message_terms "I have a headache, what medication should I take?"
      "Try rest.").1 (by decide),
   (disclaimer_triggered_by_message_terms "hi" "Hello!").2 (by decide)⟩

/-! ## ReportSynthesizer — `generateClinicalReport` and its deterministic
fallback `analyzeSymptomPatterns` (`src/unnamed/part_000`, lines 262-452) -/

/-- `entries.filter(e => e.triageLevel === 'urgent').length`. -/
def urgentEpisodeCount (entries : List SymptomRecord) : Nat :=
  (entries.filter (fun e => e.triageLevel == "urgent")).length

/-- `entries.filter(e => e.triageLevel === 'monitor').length`. -/
def monitorEpisodeCount (entries : List SymptomRecord) : Nat :=
  (entries.filter (fun e => e.triageLevel == "monitor")).length

/-- `entries.filter(e => e.triageLevel === 'safe').length` (computed by the
source but never used afterwards). -/
def safeEpisodeCount (entries : List SymptomRecord) : Nat :=
  (entries.filter (fun e => e.triageLevel == "safe")).length

/-- `symptomTypes.set(k, (symptomTypes.get(k) || 0) + 1)` on a JS `Map`
represented as an insertion-ordered association list: an existing key is
incremented in place, a new key is appended at the end. -/
def bump : List (String × Nat) → String → List (String × Nat)
  | [], k => [(k, 1)]
  | (k0, c0) :: rest, k => if k0 = k then (k0, c0 + 1) :: rest else (k0, c0) :: bump rest k

/-- Lines 333-344: the per-entry vocabulary pass. The four pain categories
fire only when the lowercased text contains `pain` together with the body
part; `nausea`, `fever`, `fatigue` fire on their own substring. -/
def addEntry (m : List (String × Nat)) (e : SymptomRecord) : List (String × Nat) :=
  let symptoms := jsToLower e.symptoms
  let m :=
    if strIncludes symptoms "pain" then
      let m := if strIncludes symptoms "back" then bump m "back pain" else m
      let m := if strIncludes symptoms "head" then bump m "headache" else m
      let m := if strIncludes symptoms "stomach" then bump m "abdominal pain" else m
      if strIncludes symptoms "foot" then bump m "foot pain" else m
    else m
  let m := if strIncludes symptoms "nausea" then bump m "nausea" else m
  let m := if strIncludes symptoms "fever" then bump m "fever" else m
  if strIncludes symptoms "fatigue" then bump m "fatigue" else m

/-- The `symptomTypes` map after the `entries.forEach` loop of lines 333-344. -/
def symptomTypes (entries : List SymptomRecord) : List (String × Nat) :=
  entries.foldl addEntry []

/-- Stable insertion step for descending count order: `x` passes every
earlier pair with a count `≤` its own, so equal counts keep their original
relative order. -/
def insertDesc (x : String × Nat) : List (String × Nat) → List (String × Nat)
  | [] => [x]
  | y :: ys => if y.2 ≤ x.2 then x :: y :: ys else y :: insertDesc x ys

/-- `Array.from(map.entries()).sort(([,a],[,b]) => b - a)`: JS `sort` is
stable, and for the total preorder given by this comparator the stable
descending-by-count order is unique, so a stable insertion sort computes it. -/
def sortByCountDesc : List (String × Nat) → List (String × Nat)
  | [] => []
  | x :: xs => insertDesc x (sortByCountDesc xs)

/-- Lines 346-349 before formatting: `.sort(…).slice(0, 3)`. -/
def topSymptomPairs (entries : List SymptomRecord) : List (String × Nat) :=
  (sortByCountDesc (symptomTypes entries)).take 3

/-- Lines 346-349: the up-to-three formatted `"name (countx)"` strings. -/
def topSymptoms (entries : List SymptomRecord) : List String :=
  (topSymptomPairs entries).map (fun p => p.1 ++ " (" ++ toString p.2 ++ "x)")

/-- The record returned by `analyzeSymptomPatterns`. -/
structure PatternAnalysis where
  summary : String
  timeline : String
  riskLevel : String
  recommendations : String
deriving DecidableEq

/-- `analyzeSymptomPatterns` of lines 317-393: the deterministic fallback
aggregation (`safeEpisodeCount` is computed by the source but unused). -/
def analyzeSymptomPatterns (entries : List SymptomRecord) : PatternAnalysis :=
  if entries.isEmpty then
    { summary := "No symptoms reported to date.",
      timeline := "No timeline available.",
      riskLevel := "LOW - No active symptoms reported",
      recommendations := "Routine health maintenance recommended." }
  else
    let urgentCount := urgentEpisodeCount entries
    let monitorCount := monitorEpisodeCount entries
    let tops := topSymptoms entries
    let summary :=
      if 0 < tops.length then
        "Primary complaints include " ++ String.intercalate ", " tops ++ "."
      else "Reports multiple symptom episodes requiring clinical evaluation."
    let timeline :=
      if 1 < entries.length then
        "Patient has reported " ++ toString entries.length ++
          " symptom episodes over time. Recent pattern shows " ++
          (if 0 < urgentCount then "urgent symptoms requiring immediate attention"
           else if 0 < monitorCount then "symptoms requiring monitoring"
           else "manageable symptoms") ++ "."
      else
        "Single symptom episode reported. " ++ (entries.headD ⟨"", "", 0⟩).triageLevel ++
          " priority level assigned."
    let riskLevel :=
      if 0 < urgentCount then
        "HIGH - " ++ toString urgentCount ++
          " urgent symptom episode(s) requiring immediate medical evaluation"
      else if 1 < monitorCount then
        "MODERATE - " ++ toString monitorCount ++ " symptom episodes requiring ongoing monitoring"
      else if monitorCount = 1 then
        "MODERATE - Symptoms requiring clinical monitoring"
      else
        "LOW - Symptoms appear manageable with routine care"
    let recommendations :=
      if 0 < urgentCount then
        "IMMEDIATE: Schedule urgent medical evaluation. Consider emergency care if symptoms worsen. Follow up within 24-48 hours."
      else if 0 < monitorCount then
        "Schedule medical appointment within 1-2 weeks. Monitor symptom progression. Provide patient education on warning signs."
      else
        "Routine follow-up recommended. Lifestyle modifications and symptomatic treatment as appropriate."
    let recommendations :=
      if 0 < tops.length then
        recommendations ++ " Primary focus: " ++ beforeFirst " (" (tops.headD "") ++ " management."
      else recommendations
    { summary := summary, timeline := timeline, riskLevel := riskLevel,
      recommendations := recommendations }

/-- The `profile` object inside `patientData` (every field may be absent). -/
structure ReportProfile where
  uid : Option String
  displayName : Option String
  age : Option Nat
  gender : Option String
  medicalConditions : Option (List String)
  allergies : Option (List String)
  medications : Option (List String)
deriving DecidableEq

/-- The `patientData` argument of `generateClinicalReport`. -/
structure ReportPatientData where
  profile : Option ReportProfile
  entries : List SymptomRecord
deriving DecidableEq

/-- `ClinicalReport` of the ai-service module; `generatedAt` is abstract. -/
structure ClinicalReport where
  patientId : String
  summary : String
  timeline : String
  riskAnalysis : String
  recommendations : String
  generatedAt : Nat
deriving DecidableEq

/-- The `sections` object filled by `parseReportSections` (a missing
assignment is `none`). -/
structure ReportSections where
  summary : Option String := none
  timeline : Option String := none
  risk : Option String := none
  recommendations : Option String := none
deriving DecidableEq

/-- JS `text.split('\n')` on the character level. -/
def splitCharList (sep : Char) : List Char → List (List Char)
  | [] => [[]]
  | c :: t =>
    if c == sep then [] :: splitCharList sep t
    else
      match splitCharList sep t with
      | [] => [[c]]
      | h :: rest => (c :: h) :: rest

/-- JS `text.split('\n')` as strings. -/
def splitLines (s : String) : List String :=
  (splitCharList '\n' s.data).map String.mk

/-- `parseReportSections` of lines 396-432: a line scanner that opens a
section at each header line and stores the accumulated content of the
previous section when the next header is seen, flushing the last open
section at the end. -/
def parseReportSections (text : String) : ReportSections :=
  let step : (String × String) × ReportSections → String → (String × String) × ReportSections :=
    fun st line =>
      let currentSection := st.1.1
      let content := st.1.2
      let sections := st.2
      if strIncludes line "CLINICAL SUMMARY" then (("summary", ""), sections)
      else if strIncludes line "TIMELINE ANALYSIS" then
        (("timeline", ""),
         if currentSection == "summary" then { sections with summary := some (jsTrim content) }
         else sections)
      else if strIncludes line "RISK ASSESSMENT" then
        (("risk", ""),
         if currentSection == "timeline" then { sections with timeline := some (jsTrim content) }
         else sections)
      else if strIncludes line "RECOMMENDATIONS" then
        (("recommendations", ""),
         if currentSection == "risk" then { sections with risk := some (jsTrim content) }
         else sections)
      else ((currentSection, content ++ line ++ "\n"), sections)
  let r := (splitLines text).foldl step (("", ""), {})
  let currentSection := r.1.1
  let content := r.1.2
  let sections := r.2
  if currentSection == "recommendations" then
    { sections with recommendations := some (jsTrim content) }
  else if currentSection == "risk" then { sections with risk := some (jsTrim content) }
  else if currentSection == "timeline" then { sections with timeline := some (jsTrim content) }
  else if currentSection == "summary" then { sections with summary := some (jsTrim content) }
  else sections

/-- JS `maybeUndefined || dflt` for an optional string: both a missing value
and the empty string fall back. -/
def optOrStr (o : Option String) (dflt : String) : String :=
  jsOrStr (o.getD "") dflt

/-- `generateClinicalReport` of `src/unnamed/part_000`, lines 263-314: on
remote success, parse the four labeled sections with per-section defaults;
on remote failure (the `catch` branch), build the deterministic fallback
report from `analyzeSymptomPatterns`. -/
def generateClinicalReport (remote : RemoteOutcome) (patientData : ReportPatientData)
    (now : Nat) : ClinicalReport :=
  match remote with
  | .success generated =>
      let generatedText := (generated.map jsTrim).getD ""
      let sections := parseReportSections generatedText
      { patientId := (patientData.profile.bind (fun p => p.uid)).getD "",
        summary := optOrStr sections.summary "Unable to generate summary at this time.",
        timeline := optOrStr sections.timeline "Timeline analysis unavailable.",
        riskAnalysis := optOrStr sections.risk "Risk assessment pending.",
        recommendations :=
          optOrStr sections.recommendations "Please review patient history manually.",
        generatedAt := now }
  | .failure =>
      let entries := patientData.entries
      let symptomAnalysis := analyzeSymptomPatterns entries
      let displayName := optOrStr (patientData.profile.bind (fun p => p.displayName)) "Patient"
      let ageText :=
        match patientData.profile.bind (fun p => p.age) with
        | some a => if a = 0 then "Unknown age" else toString a
        | none => "Unknown age"
      let genderText := optOrStr (patientData.profile.bind (fun p => p.gender)) "Unknown gender"
      { patientId := (patientData.profile.bind (fun p => p.uid)).getD "",
        summary := displayName ++ " (" ++ ageText ++ ", " ++ genderText ++ ") has reported " ++
          toString entries.length ++ " symptom episodes. " ++ symptomAnalysis.summary,
        timeline := symptomAnalysis.timeline,
        riskAnalysis := symptomAnalysis.riskLevel,
        recommendations := symptomAnalysis.recommendations,
        generatedAt := now }

/-! ## Claims about the report fallback's risk tier and empty-history report -/

theorem isPref_append {p s : List Char} (t : List Char) (h : isPref p s = true) :
    isPref p (s ++ t) = true := by
  induction p generalizing s with
  | nil => simp [isPref]
  | cons c cs ih =>
    cases s with
    | nil => exact absurd h (by simp [isPref])
    | cons d ds =>
      simp only [isPref, Bool.and_eq_true] at h
      simp only [List.cons_append, isPref, Bool.and_eq_true]
      exact ⟨h.1, ih h.2⟩

theorem strStartsWith_append_left {s p : String} (t : String) (h : strStartsWith s p = true) :
    strStartsWith (s ++ t) p = true := by
  show isPref p.data ((s ++ t).data) = true
  rw [strData_append]
  exact isPref_append t.data h

theorem riskLevel_of_counts (entries : List SymptomRecord) :
    (0 < urgentEpisodeCount entries →
      strStartsWith (analyzeSymptomPatterns entries).riskLevel "HIGH" = true) ∧
      (urgentEpisodeCount entries = 0 → 1 < monitorEpisodeCount entries →
        strStartsWith (analyzeSymptomPatterns entries).riskLevel "MODERATE" = true) ∧
      (urgentEpisodeCount entries = 0 → monitorEpisodeCount entries = 1 →
        strStartsWith (analyzeSymptomPatterns entries).riskLevel "MODERATE" = true) ∧
      (urgentEpisodeCount entries = 0 → monitorEpisodeCount entries = 0 →
        strStartsWith (analyzeSymptomPatterns entries).riskLevel "LOW" = true) := by
  cases entries with
  | nil =>
    refine ⟨fun h => absurd h (by decide), fun _ h => absurd h (by decide),
      fun _ h => absurd h (by decide), fun _ _ => by decide⟩
  | cons e es =>
    unfold analyzeSymptomPatterns
    simp only [List.isEmpty_cons, Bool.false_eq_true, if_false]
    refine ⟨?_, ?_, ?_, ?_⟩
    · intro h
      rw [if_pos h]
      exact strStartsWith_append_left _ (strStartsWith_append_left _ (by decide))
    · intro h0 h1
      rw [if_neg (by omega), if_pos h1]
      exact strStartsWith_append_left _ (strStartsWith_append_left _ (by decide))
    · intro h0 h1
      rw [if_neg (by omega), if_neg (by omega), if_pos h1]
      decide
    · intro h0 h1
      rw [if_neg (by omega), if_neg (by omega), if_neg (by omega)]
      decide

/-- C4. The fallback report's risk tier is a function of the triage-tier
counts: at least one `urgent` entry forces HIGH whatever else is present;
otherwise more than one `monitor` entry gives MODERATE (multiple), exactly
one gives MODERATE (single), and none gives LOW (also on an empty list). -/
theorem fallback_risk_tier_from_counts (pd : ReportPatientData) (now : Nat) :
    (0 < urgentEpisodeCount pd.entries →
      strStartsWith (generateClinicalReport RemoteOutcome.failure pd now).riskAnalysis "HIGH" = true) ∧
      (urgentEpisodeCount pd.entries = 0 → 1 < monitorEpisodeCount pd.entries →
        strStartsWith (generateClinicalReport RemoteOutcome.failure pd now).riskAnalysis "MODERATE" = true) ∧
      (urgentEpisodeCount pd.entries = 0 → monitorEpisodeCount pd.entries = 1 →
        strStartsWith (generateClinicalReport RemoteOutcome.failure pd now).riskAnalysis "MODERATE" = true) ∧
      (urgentEpisodeCount pd.entries = 0 → monitorEpisodeCount pd.entries = 0 →
        strStartsWith (generateClinicalReport RemoteOutcome.failure pd now).riskAnalysis "LOW" = true) := by
  have hr : (generateClinicalReport RemoteOutcome.failure pd now).riskAnalysis =
      (analyzeSymptomPatterns pd.entries).riskLevel := rfl
  rw [hr]
  exact riskLevel_of_counts pd.entries

theorem fallback_risk_tier_from_counts_witness :
    strStartsWith
        (generateClinicalReport RemoteOutcome.failure
          ⟨none, [⟨"chest pain", "urgent", 0⟩, ⟨"fever", "monitor", 1⟩, ⟨"tired", "safe", 2⟩]⟩ 0).riskAnalysis
        "HIGH" = true ∧
      strStartsWith
        (generateClinicalReport RemoteOutcome.failure
          ⟨none, [⟨"fever", "monitor", 0⟩, ⟨"nausea", "monitor", 1⟩]⟩ 0).riskAnalysis
        "MODERATE" = true ∧
      strStartsWith
        (generateClinicalReport RemoteOutcome.failure
          ⟨none, [⟨"fever", "monitor", 0⟩]⟩ 0).riskAnalysis
        "MODERATE" = true ∧
      strStartsWith
        (generateClinicalReport RemoteOutcome.failure
          ⟨none, [⟨"tired", "safe", 0⟩]⟩ 0).riskAnalysis
        "LOW" = true :=
  ⟨(fallback_risk_tier_from_counts
      ⟨none, [⟨"chest pain", "urgent", 0⟩, ⟨"fever", "monitor", 1⟩, ⟨"tired", "safe", 2⟩]⟩ 0).1
      (by decide),
   (fallback_risk_tier_from_counts
      ⟨none, [⟨"fever", "monitor", 0⟩, ⟨"nausea", "monitor", 1⟩]⟩ 0).2.1 (by decide) (by decide),
   (fallback_risk_tier_from_counts ⟨none, [⟨"fever", "monitor", 0⟩]⟩ 0).2.2.1 (by decide)
      (by decide),
   (fallback_risk_tier_from_counts ⟨none, [⟨"tired", "safe", 0⟩]⟩ 0).2.2.2 (by decide) (by decide)⟩

/-- C5 counterexample. For an empty entries list the fallback report's
`timeline` is the fixed string "No timeline available.": it does not state
that no symptoms were reported (it does not even mention symptoms — the
text that does, "No symptoms reported to date.", goes into `summary`). -/
theorem empty_entries_timeline_text :
    (generateClinicalReport RemoteOutcome.failure ⟨none, []⟩ 0).timeline = "No timeline available." ∧
      strIncludes
        (jsToLower (generateClinicalReport RemoteOutcome.failure ⟨none, []⟩ 0).timeline)
        "symptom" = false := by
  decide

/-- C5 amended. On an empty entries list (remote unavailable) the fallback
report's risk analysis is LOW ("LOW - No active symptoms reported") and its
timeline is "No timeline available."; the sentence that no symptoms were
reported ("No symptoms reported to date.") appears in the summary field
instead of the timeline. -/
theorem empty_entries_fallback_report (pd : ReportPatientData) (now : Nat)
    (h : pd.entries = []) :
    (generateClinicalReport RemoteOutcome.failure pd now).riskAnalysis =
        "LOW - No active symptoms reported" ∧
      strStartsWith (generateClinicalReport RemoteOutcome.failure pd now).riskAnalysis "LOW" = true ∧
      (generateClinicalReport RemoteOutcome.failure pd now).timeline = "No timeline available." ∧
      strIncludes (generateClinicalReport RemoteOutcome.failure pd now).summary
        "No symptoms reported to date." = true := by
  have hrisk : (generateClinicalReport RemoteOutcome.failure pd now).riskAnalysis =
      (analyzeSymptomPatterns pd.entries).riskLevel := rfl
  have htime : (generateClinicalReport RemoteOutcome.failure pd now).timeline =
      (analyzeSymptomPatterns pd.entries).timeline := rfl
  have hsum : ∃ p0 : String, (generateClinicalReport RemoteOutcome.failure pd now).summary =
      p0 ++ (analyzeSymptomPatterns pd.entries).summary := ⟨_, rfl⟩
  obtain ⟨p0, hp0⟩ := hsum
  rw [hrisk, htime, hp0, h]
  refine ⟨by decide, by decide, by decide, ?_⟩
  exact strIncludes_append_right p0 (by decide)

theorem empty_entries_fallback_report_witness :
    (generateClinicalReport RemoteOutcome.failure ⟨none, []⟩ 7).riskAnalysis =
        "LOW - No active symptoms reported" ∧
      strStartsWith (generateClinicalReport RemoteOutcome.failure ⟨none, []⟩ 7).riskAnalysis
        "LOW" = true ∧
      (generateClinicalReport RemoteOutcome.failure ⟨none, []⟩ 7).timeline =
        "No timeline available." ∧
      strIncludes (generateClinicalReport RemoteOutcome.failure ⟨none, []⟩ 7).summary
        "No symptoms reported to date." = true :=
  empty_entries_fallback_report ⟨none, []⟩ 7 rfl

/-! ## The recognized symptom categories of the fallback (claim C9) -/

/-- The seven categories the `entries.forEach` vocabulary pass of lines
333-344 can record. -/
inductive SymCat where
  | backPain
  | headachePain
  | abdominalPain
  | footPain
  | nauseaCat
  | feverCat
  | fatigueCat
deriving DecidableEq

/-- The map key used for each category. -/
def catName : SymCat → String
  | .backPain => "back pain"
  | .headachePain => "headache"
  | .abdominalPain => "abdominal pain"
  | .footPain => "foot pain"
  | .nauseaCat => "nausea"
  | .feverCat => "fever"
  | .fatigueCat => "fatigue"

/-- The per-entry trigger condition of each category, read off lines
333-344: a pain category needs `pain` and its body part as substrings of the
lowercased text; the other three need only their own substring. -/
def catTrigger (c : SymCat) (e : SymptomRecord) : Bool :=
  match c with
  | .backPain => strIncludes (jsToLower e.symptoms) "pain" && strIncludes (jsToLower e.symptoms) "back"
  | .headachePain => strIncludes (jsToLower e.symptoms) "pain" && strIncludes (jsToLower e.symptoms) "head"
  | .abdominalPain => strIncludes (jsToLower e.symptoms) "pain" && strIncludes (jsToLower e.symptoms) "stomach"
  | .footPain => strIncludes (jsToLower e.symptoms) "pain" && strIncludes (jsToLower e.symptoms) "foot"
  | .nauseaCat => strIncludes (jsToLower e.symptoms) "nausea"
  | .feverCat => strIncludes (jsToLower e.symptoms) "fever"
  | .fatigueCat => strIncludes (jsToLower e.symptoms) "fatigue"

/-- Conditional bump, used to restate `addEntry` as a uniform chain. -/
def bumpIf (b : Bool) (m : List (String × Nat)) (k : String) : List (String × Nat) :=
  if b then bump m k else m

/-- Count lookup in the association-list map (0 for a missing key). -/
def lk : List (String × Nat) → String → Nat
  | [], _ => 0
  | (k0, c0) :: rest, k => if k0 = k then c0 else lk rest k

theorem lk_bump_self (m : List (String × Nat)) (k : String) :
    lk (bump m k) k = lk m k + 1 := by
  induction m with
  | nil => simp [bump, lk]
  | cons p rest ih =>
    obtain ⟨k0, c0⟩ := p
    by_cases h : k0 = k
    · simp [bump, lk, h]
    · simp [bump, lk, h, ih]

theorem lk_bump_other (m : List (String × Nat)) {k k' : String} (h : k ≠ k') :
    lk (bump m k) k' = lk m k' := by
  induction m with
  | nil => simp [bump, lk, h]
  | cons p rest ih =>
    obtain ⟨k0, c0⟩ := p
    by_cases h0 : k0 = k
    · subst h0
      simp [bump, lk, h]
    · simp [bump, lk, h0, ih]

theorem lk_bumpIf (b : Bool) (m : List (String × Nat)) (k k' : String) :
    lk (bumpIf b m k) k' = lk m k' + (if b = true ∧ k = k' then 1 else 0) := by
  cases b with
  | false => simp [bumpIf]
  | true =>
    by_cases h : k = k'
    · subst h
      simp [bumpIf, lk_bump_self]
    · simp [bumpIf, lk_bump_other m h, h]

/-- `addEntry` as a uniform chain of conditional bumps, one per category in
the source's order. -/
theorem addEntry_eq_chain (m : List (String × Nat)) (e : SymptomRecord) :
    addEntry m e =
      bumpIf (catTrigger .fatigueCat e)
        (bumpIf (catTrigger .feverCat e)
          (bumpIf (catTrigger .nauseaCat e)
            (bumpIf (catTrigger .footPain e)
              (bumpIf (catTrigger .abdominalPain e)
                (bumpIf (catTrigger .headachePain e)
                  (bumpIf (catTrigger .backPain e) m "back pain")
                  "headache")
                "abdominal pain")
              "foot pain")
            "nausea")
          "fever")
        "fatigue" := by
  unfold addEntry bumpIf catTrigger
  by_cases hp : strIncludes (jsToLower e.symptoms) "pain" = true
  · simp [hp]
  · simp only [Bool.not_eq_true] at hp
    simp [hp]

theorem addEntry_lk_cat (m : List (String × Nat)) (e : SymptomRecord) (c : SymCat) :
    lk (addEntry m e) (catName c) =
      lk m (catName c) + (if catTrigger c e = true then 1 else 0) := by
  rw [addEntry_eq_chain]
  cases c <;> simp +decide [lk_bumpIf, catName]

theorem symptomTypes_lk (entries : List SymptomRecord) (c : SymCat) :
    lk (symptomTypes entries) (catName c) =
      entries.countP (fun e => catTrigger c e) := by
  have key : ∀ (l : List SymptomRecord) (m : List (String × Nat)),
      lk (l.foldl addEntry m) (catName c) = lk m (catName c) + l.countP (fun e => catTrigger c e) := by
    intro l
    induction l with
    | nil => intro m; simp
    | cons e es ih =>
      intro m
      rw [List.foldl_cons, ih, addEntry_lk_cat, List.countP_cons]
      omega
  have h := key entries []
  rw [symptomTypes, h]
  simp [lk]

theorem mem_key_bump {m : List (String × Nat)} {k : String} {p : String × Nat}
    (h : p ∈ bump m k) : p.1 ∈ m.map Prod.fst ∨ p.1 = k := by
  induction m with
  | nil =>
    simp [bump] at h
    simp [h]
  | cons q rest ih =>
    obtain ⟨k0, c0⟩ := q
    by_cases h0 : k0 = k
    · subst h0
      have hb : bump ((k0, c0) :: rest) k0 = (k0, c0 + 1) :: rest := by simp [bump]
      rw [hb] at h
      rcases List.mem_cons.mp h with h | h
      · exact Or.inr (by simp [h])
      · exact Or.inl (by
          simp only [List.map_cons, List.mem_cons]
          exact Or.inr (List.mem_map.mpr ⟨p, h, rfl⟩))
    · have hb : bump ((k0, c0) :: rest) k = (k0, c0) :: bump rest k := by simp [bump, h0]
      rw [hb] at h
      rcases List.mem_cons.mp h with h | h
      · exact Or.inl (by simp [h])
      · rcases ih h with h2 | h2
        · exact Or.inl (by
            simp only [List.map_cons, List.mem_cons]
            exact Or.inr h2)
        · exact Or.inr h2

theorem pos_bump {m : List (String × Nat)} {k : String}
    (h : ∀ p ∈ m, 0 < p.2) : ∀ p ∈ bump m k, 0 < p.2 := by
  induction m with
  | nil =>
    intro p hp
    simp [bump] at hp
    simp [hp]
  | cons q rest ih =>
    obtain ⟨k0, c0⟩ := q
    intro p hp
    by_cases h0 : k0 = k
    · subst h0
      simp [bump] at hp
      rcases hp with hp | hp
      · simp [hp]
      · exact h p (by simp [hp])
    · simp [bump, h0] at hp
      rcases hp with hp | hp
      · subst hp
        exact h (k0, c0) (by simp)
      · exact ih (fun q hq => h q (by simp [hq])) p hp

theorem nodup_keys_bump {m : List (String × Nat)} {k : String}
    (h : (m.map Prod.fst).Nodup) : ((bump m k).map Prod.fst).Nodup := by
  induction m with
  | nil => simp [bump]
  | cons q rest ih =>
    obtain ⟨k0, c0⟩ := q
    simp only [List.map_cons, List.nodup_cons] at h
    by_cases h0 : k0 = k
    · subst h0
      have hb : bump ((k0, c0) :: rest) k0 = (k0, c0 + 1) :: rest := by simp [bump]
      rw [hb]
      simp only [List.map_cons, List.nodup_cons]
      exact h
    · have hb : bump ((k0, c0) :: rest) k = (k0, c0) :: bump rest k := by simp [bump, h0]
      rw [hb]
      simp only [List.map_cons, List.nodup_cons]
      constructor
      · intro hmem
        rcases List.mem_map.mp hmem with ⟨p, hp, hkey⟩
        rcases mem_key_bump hp with h2 | h2
        · exact h.1 (by rw [← hkey]; exact h2)
        · exact h0 (by rw [← hkey, h2])
      · exact ih h.2

theorem bumpIf_inv {m : List (String × Nat)} (b : Bool) (c0 : SymCat)
    (h1 : (m.map Prod.fst).Nodup)
    (h2 : ∀ p ∈ m, (∃ c : SymCat, p.1 = catName c) ∧ 0 < p.2) :
    ((bumpIf b m (catName c0)).map Prod.fst).Nodup ∧
      ∀ p ∈ bumpIf b m (catName c0), (∃ c : SymCat, p.1 = catName c) ∧ 0 < p.2 := by
  cases b with
  | false => exact ⟨h1, h2⟩
  | true =>
    refine ⟨nodup_keys_bump h1, fun p hp => ⟨?_, pos_bump (fun q hq => (h2 q hq).2) p hp⟩⟩
    rcases mem_key_bump hp with h3 | h3
    · rcases List.mem_map.mp h3 with ⟨q, hq, hkey⟩
      rcases (h2 q hq).1 with ⟨c, hc⟩
      exact ⟨c, by rw [← hkey, hc]⟩
    · exact ⟨c0, h3⟩

theorem addEntry_inv {m : List (String × Nat)} (e : SymptomRecord)
    (h1 : (m.map Prod.fst).Nodup)
    (h2 : ∀ p ∈ m, (∃ c : SymCat, p.1 = catName c) ∧ 0 < p.2) :
    (((addEntry m e).map Prod.fst)).Nodup ∧
      ∀ p ∈ addEntry m e, (∃ c : SymCat, p.1 = catName c) ∧ 0 < p.2 := by
  rw [addEntry_eq_chain]
  have s1 := bumpIf_inv (m := m) (catTrigger .backPain e) .backPain h1 h2
  have s2 := bumpIf_inv (catTrigger .headachePain e) .headachePain s1.1 s1.2
  have s3 := bumpIf_inv (catTrigger .abdominalPain e) .abdominalPain s2.1 s2.2
  have s4 := bumpIf_inv (catTrigger .footPain e) .footPain s3.1 s3.2
  have s5 := bumpIf_inv (catTrigger .nauseaCat e) .nauseaCat s4.1 s4.2
  have s6 := bumpIf_inv (catTrigger .feverCat e) .feverCat s5.1 s5.2
  exact bumpIf_inv (catTrigger .fatigueCat e) .fatigueCat s6.1 s6.2

theorem symptomTypes_inv (entries : List SymptomRecord) :
    (((symptomTypes entries).map Prod.fst)).Nodup ∧
      ∀ p ∈ symptomTypes entries, (∃ c : SymCat, p.1 = catName c) ∧ 0 < p.2 := by
  have key : ∀ (l : List SymptomRecord) (m : List (String × Nat)),
      (m.map Prod.fst).Nodup → (∀ p ∈ m, (∃ c : SymCat, p.1 = catName c) ∧ 0 < p.2) →
        ((l.foldl addEntry m).map Prod.fst).Nodup ∧
          ∀ p ∈ l.foldl addEntry m, (∃ c : SymCat, p.1 = catName c) ∧ 0 < p.2 := by
    intro l
    induction l with
    | nil => intro m h1 h2; exact ⟨h1, h2⟩
    | cons e es ih =>
      intro m h1 h2
      rw [List.foldl_cons]
      have := addEntry_inv e h1 h2
      exact ih (addEntry m e) this.1 this.2
  exact key entries [] (by simp) (by simp)

theorem lk_eq_of_mem {m : List (String × Nat)} {k : String} {v : Nat}
    (h : (k, v) ∈ m) (hnd : (m.map Prod.fst).Nodup) : lk m k = v := by
  induction m with
  | nil => simp at h
  | cons q rest ih =>
    obtain ⟨k0, c0⟩ := q
    simp only [List.map_cons, List.nodup_cons] at hnd
    rcases List.mem_cons.mp h with h1 | h1
    · injection h1 with hk hv
      subst hk
      subst hv
      simp [lk]
    · have hk0 : k0 ≠ k := by
        intro hkk
        exact hnd.1 (List.mem_map.mpr ⟨(k, v), h1, by rw [hkk]⟩)
      simp only [lk, if_neg hk0]
      exact ih h1 hnd.2

theorem mem_insertDesc {x z : String × Nat} {l : List (String × Nat)} :
    z ∈ insertDesc x l ↔ z = x ∨ z ∈ l := by
  induction l with
  | nil => simp [insertDesc]
  | cons y ys ih =>
    rw [insertDesc]
    by_cases h : y.2 ≤ x.2
    · rw [if_pos h]
      simp [List.mem_cons]
    · rw [if_neg h]
      simp only [List.mem_cons, ih]
      tauto

theorem pairwise_insertDesc {l : List (String × Nat)} {x : String × Nat}
    (h : List.Pairwise (fun a b => b.2 ≤ a.2) l) :
    List.Pairwise (fun a b => b.2 ≤ a.2) (insertDesc x l) := by
  induction l with
  | nil => simp [insertDesc]
  | cons y ys ih =>
    rw [insertDesc]
    rcases List.pairwise_cons.mp h with ⟨hy, hys⟩
    by_cases hc : y.2 ≤ x.2
    · rw [if_pos hc]
      refine List.pairwise_cons.mpr ⟨?_, h⟩
      intro z hz
      rcases List.mem_cons.mp hz with rfl | hz
      · exact hc
      · exact le_trans (hy z hz) hc
    · rw [if_neg hc]
      refine List.pairwise_cons.mpr ⟨?_, ih hys⟩
      intro z hz
      rcases mem_insertDesc.mp hz with rfl | hz
      · omega
      · exact hy z hz

theorem pairwise_sortByCountDesc (l : List (String × Nat)) :
    List.Pairwise (fun a b => b.2 ≤ a.2) (sortByCountDesc l) := by
  induction l with
  | nil => simp [sortByCountDesc]
  | cons x xs ih =>
    rw [sortByCountDesc]
    exact pairwise_insertDesc ih

theorem mem_sortByCountDesc {l : List (String × Nat)} {z : String × Nat} :
    z ∈ sortByCountDesc l ↔ z ∈ l := by
  induction l with
  | nil => simp [sortByCountDesc]
  | cons x xs ih =>
    rw [sortByCountDesc]
    simp only [mem_insertDesc, ih, List.mem_cons]

/-- The categories in first-seen order: the order in which the vocabulary
pass of lines 333-344 first records them — entries left to right, and within
one entry in the source's check order (back pain, headache, abdominal pain,
foot pain, nausea, fever, fatigue); a category already recorded is not
repeated. One per-entry step, mirroring `addEntry` at the key level. -/
def addFirstSeen (acc : List SymCat) (e : SymptomRecord) : List SymCat :=
  let acc := if catTrigger .backPain e = true ∧ SymCat.backPain ∉ acc then acc ++ [.backPain] else acc
  let acc := if catTrigger .headachePain e = true ∧ SymCat.headachePain ∉ acc then acc ++ [.headachePain] else acc
  let acc := if catTrigger .abdominalPain e = true ∧ SymCat.abdominalPain ∉ acc then acc ++ [.abdominalPain] else acc
  let acc := if catTrigger .footPain e = true ∧ SymCat.footPain ∉ acc then acc ++ [.footPain] else acc
  let acc := if catTrigger .nauseaCat e = true ∧ SymCat.nauseaCat ∉ acc then acc ++ [.nauseaCat] else acc
  let acc := if catTrigger .feverCat e = true ∧ SymCat.feverCat ∉ acc then acc ++ [.feverCat] else acc
  if catTrigger .fatigueCat e = true ∧ SymCat.fatigueCat ∉ acc then acc ++ [.fatigueCat] else acc

/-- The first-seen category order over a whole entries list. -/
def firstSeenCats (entries : List SymptomRecord) : List SymCat :=
  entries.foldl addFirstSeen []

theorem catName_injective : Function.Injective catName := by
  intro a b
  cases a <;> cases b <;> decide

theorem keys_bump (m : List (String × Nat)) (k : String) :
    (bump m k).map Prod.fst =
      if k ∈ m.map Prod.fst then m.map Prod.fst else m.map Prod.fst ++ [k] := by
  induction m with
  | nil => simp [bump]
  | cons q rest ih =>
    obtain ⟨k0, c0⟩ := q
    by_cases h0 : k0 = k
    · subst h0
      have hb : bump ((k0, c0) :: rest) k0 = (k0, c0 + 1) :: rest := by simp [bump]
      rw [hb]
      simp
    · have hb : bump ((k0, c0) :: rest) k = (k0, c0) :: bump rest k := by simp [bump, h0]
      rw [hb]
      simp only [List.map_cons, ih]
      by_cases h1 : k ∈ rest.map Prod.fst
      · rw [if_pos h1, if_pos (by simp [h1])]
      · rw [if_neg h1, if_neg (by simp [h1, Ne.symm h0]), List.cons_append]

theorem keys_bumpIf_mirror {m : List (String × Nat)} {acc : List SymCat}
    (h : m.map Prod.fst = acc.map catName) (b : Bool) (c : SymCat) :
    (bumpIf b m (catName c)).map Prod.fst =
      (if b = true ∧ c ∉ acc then acc ++ [c] else acc).map catName := by
  cases b with
  | false => simpa [bumpIf] using h
  | true =>
    have hb : bumpIf true m (catName c) = bump m (catName c) := rfl
    rw [hb, keys_bump, h]
    by_cases hc : c ∈ acc
    · rw [if_pos ((List.mem_map_of_injective catName_injective).mpr hc),
        if_neg (by simp [hc])]
    · rw [if_neg (fun hmem => hc ((List.mem_map_of_injective catName_injective).mp hmem)),
        if_pos ⟨rfl, hc⟩]
      simp

theorem keys_addEntry_mirror {m : List (String × Nat)} {acc : List SymCat}
    (h : m.map Prod.fst = acc.map catName) (e : SymptomRecord) :
    (addEntry m e).map Prod.fst = (addFirstSeen acc e).map catName := by
  rw [addEntry_eq_chain]
  exact keys_bumpIf_mirror
    (keys_bumpIf_mirror
      (keys_bumpIf_mirror
        (keys_bumpIf_mirror
          (keys_bumpIf_mirror
            (keys_bumpIf_mirror
              (keys_bumpIf_mirror h (catTrigger .backPain e) .backPain)
              (catTrigger .headachePain e) .headachePain)
            (catTrigger .abdominalPain e) .abdominalPain)
          (catTrigger .footPain e) .footPain)
        (catTrigger .nauseaCat e) .nauseaCat)
      (catTrigger .feverCat e) .feverCat)
    (catTrigger .fatigueCat e) .fatigueCat

/-- The map's key sequence is exactly the first-seen category order: bump
appends a fresh key at the end and leaves the position of an existing key
unchanged, so keys appear in the order they were first recorded. -/
theorem keys_symptomTypes (entries : List SymptomRecord) :
    (symptomTypes entries).map Prod.fst = (firstSeenCats entries).map catName := by
  have key : ∀ (l : List SymptomRecord) (m : List (String × Nat)) (acc : List SymCat),
      m.map Prod.fst = acc.map catName →
        (l.foldl addEntry m).map Prod.fst = (l.foldl addFirstSeen acc).map catName := by
    intro l
    induction l with
    | nil => intro m acc h; exact h
    | cons e es ih => intro m acc h; exact ih _ _ (keys_addEntry_mirror h e)
  exact key entries [] [] rfl

theorem insertDesc_perm (x : String × Nat) (l : List (String × Nat)) :
    (insertDesc x l).Perm (x :: l) := by
  induction l with
  | nil => simp [insertDesc]
  | cons y ys ih =>
    rw [insertDesc]
    by_cases h : y.2 ≤ x.2
    · rw [if_pos h]
    · rw [if_neg h]
      exact (ih.cons y).trans (List.Perm.swap x y ys)

theorem perm_sortByCountDesc (l : List (String × Nat)) : (sortByCountDesc l).Perm l := by
  induction l with
  | nil => simp [sortByCountDesc]
  | cons x xs ih =>
    rw [sortByCountDesc]
    exact (insertDesc_perm x (sortByCountDesc xs)).trans (ih.cons x)

theorem sublist_insertDesc (x : String × Nat) (l : List (String × Nat)) :
    l.Sublist (insertDesc x l) := by
  induction l with
  | nil => simp [insertDesc]
  | cons y ys ih =>
    rw [insertDesc]
    by_cases h : y.2 ≤ x.2
    · rw [if_pos h]
      exact (List.Sublist.refl _).cons x
    · rw [if_neg h]
      exact ih.cons₂ y

theorem insertDesc_pair_before {x q : String × Nat} {l : List (String × Nat)}
    (hq : q ∈ l) (hle : q.2 ≤ x.2) : [x, q].Sublist (insertDesc x l) := by
  induction l with
  | nil => simp at hq
  | cons y ys ih =>
    rw [insertDesc]
    by_cases h : y.2 ≤ x.2
    · rw [if_pos h]
      exact (List.singleton_sublist.mpr hq).cons₂ x
    · rw [if_neg h]
      rcases List.mem_cons.mp hq with rfl | hq2
      · exact absurd hle h
      · exact (ih hq2).cons y

/-- Stability of the modelled JS sort: a pair already in descending-count
order keeps its relative order, so equal counts stay in map order. -/
theorem stable_sortByCountDesc {p q : String × Nat} :
    ∀ {l : List (String × Nat)}, [p, q].Sublist l → q.2 ≤ p.2 →
      [p, q].Sublist (sortByCountDesc l) := by
  intro l
  induction l with
  | nil => intro h _; simp at h
  | cons x xs ih =>
    intro h hle
    rw [sortByCountDesc]
    cases h with
    | cons _ h2 => exact (ih h2 hle).trans (sublist_insertDesc x (sortByCountDesc xs))
    | cons₂ _ h2 =>
      exact insertDesc_pair_before (mem_sortByCountDesc.mpr (List.singleton_sublist.mp h2)) hle

theorem pair_sublist_total {α : Type} {p q : α} {l : List α}
    (hp : p ∈ l) (hq : q ∈ l) (hne : p ≠ q) :
    [p, q].Sublist l ∨ [q, p].Sublist l := by
  induction l with
  | nil => simp at hp
  | cons x xs ih =>
    rcases List.mem_cons.mp hp with rfl | hp2
    · have hq2 : q ∈ xs := by
        rcases List.mem_cons.mp hq with h | h
        · exact absurd h.symm hne
        · exact h
      exact Or.inl ((List.singleton_sublist.mpr hq2).cons₂ _)
    · rcases List.mem_cons.mp hq with rfl | hq2
      · exact Or.inr ((List.singleton_sublist.mpr hp2).cons₂ _)
      · rcases ih hp2 hq2 with h | h
        · exact Or.inl (h.cons x)
        · exact Or.inr (h.cons x)

theorem pair_sublist_antisym {α : Type} {p q : α} :
    ∀ {l : List α}, l.Nodup → [p, q].Sublist l → [q, p].Sublist l → p = q := by
  intro l
  induction l with
  | nil => intro _ h1 _; simp at h1
  | cons x xs ih =>
    intro hnd h1 h2
    rcases List.nodup_cons.mp hnd with ⟨hx, hxs⟩
    cases h1 with
    | cons _ h1b =>
      cases h2 with
      | cons _ h2b => exact ih hxs h1b h2b
      | cons₂ _ h2b => exact absurd (h1b.subset (by simp)) hx
    | cons₂ _ h1b =>
      cases h2 with
      | cons _ h2b => exact absurd (h2b.subset (by simp)) hx
      | cons₂ _ h2b => rfl

theorem lk_pos_key_mem {m : List (String × Nat)} {k : String} (h : lk m k ≠ 0) :
    k ∈ m.map Prod.fst := by
  induction m with
  | nil => simp [lk] at h
  | cons q rest ih =>
    obtain ⟨k0, c0⟩ := q
    by_cases h0 : k0 = k
    · simp [h0]
    · simp only [lk, if_neg h0] at h
      simp [ih h]

theorem key_mem_pair {m : List (String × Nat)} {k : String} (h : k ∈ m.map Prod.fst) :
    ∃ v, (k, v) ∈ m := by
  rcases List.mem_map.mp h with ⟨p, hp, hk⟩
  subst hk
  exact ⟨p.2, hp⟩

/-- C9 counterexample. The claimed vocabulary includes eye strain and
concentration difficulty; the source's vocabulary pass does not: an entry
whose text contains "eye strain" and "difficulty concentrating" produces no
recognized category at all — the top-symptoms list is empty and the summary
falls back to the generic sentence. -/
theorem eye_strain_not_a_recognized_category :
    strIncludes (jsToLower "Eye strain and difficulty concentrating") "eye strain" = true ∧
      topSymptoms [⟨"Eye strain and difficulty concentrating", "monitor", 0⟩] = [] ∧
      (analyzeSymptomPatterns [⟨"Eye strain and difficulty concentrating", "monitor", 0⟩]).summary =
        "Reports multiple symptom episodes requiring clinical evaluation." := by
  decide

/-- C9 amended. The fallback lists the up-to-3 most-frequent recognized
symptom categories: the report's pairs are the first at-most-3 elements of
the full sorted category list (first conjunct, definitional), and that full
list (i) consists exclusively of the seven recognized categories — back
pain, headache, abdominal pain, foot pain, each requiring `pain` plus the
body-part substring, and nausea, fever, fatigue; there is no eye-strain or
concentration-difficulty category — each paired with its exact frequency,
the number of entries whose lowercased text matches its trigger substrings
(hence positive); (ii) contains every recognized category matching at least
one entry; and (iii) is ordered by descending frequency, ties broken by
first-seen order across the entries (`firstSeenCats`: the order in which
categories are first recorded in the left-to-right pass, within one entry in
the source's check order). So the listed pairs are the most frequent:
every positive-count category is in the full list, and the report takes
that list's first at-most-3 elements. -/
theorem fallback_top_symptom_categories (entries : List SymptomRecord) :
    topSymptomPairs entries = (sortByCountDesc (symptomTypes entries)).take 3 ∧
      (topSymptoms entries).length ≤ 3 ∧
      (∀ p ∈ sortByCountDesc (symptomTypes entries),
        ∃ c : SymCat, p.1 = catName c ∧
          p.2 = entries.countP (fun e => catTrigger c e) ∧ 0 < p.2) ∧
      (∀ c : SymCat, 0 < entries.countP (fun e => catTrigger c e) →
        ∃ p ∈ sortByCountDesc (symptomTypes entries),
          p.1 = catName c ∧ p.2 = entries.countP (fun e => catTrigger c e)) ∧
      List.Pairwise
        (fun p q => q.2 ≤ p.2 ∧ (q.2 = p.2 →
          [p.1, q.1].Sublist ((firstSeenCats entries).map catName)))
        (sortByCountDesc (symptomTypes entries)) := by
  obtain ⟨hnd, hall⟩ := symptomTypes_inv entries
  refine ⟨rfl, ?_, ?_, ?_, ?_⟩
  · rw [topSymptoms, List.length_map, topSymptomPairs, List.length_take]
    exact min_le_left _ _
  · intro p hp
    have hp1 : p ∈ symptomTypes entries := mem_sortByCountDesc.mp hp
    obtain ⟨⟨c, hc⟩, hpos⟩ := hall p hp1
    obtain ⟨k, v⟩ := p
    simp only at hc hpos ⊢
    subst hc
    refine ⟨c, rfl, ?_, hpos⟩
    have hlk := lk_eq_of_mem hp1 hnd
    exact hlk.symm.trans (symptomTypes_lk entries c)
  · intro c hc
    have hlkc := symptomTypes_lk entries c
    have hne : lk (symptomTypes entries) (catName c) ≠ 0 := by omega
    obtain ⟨v, hv⟩ := key_mem_pair (lk_pos_key_mem hne)
    refine ⟨(catName c, v), mem_sortByCountDesc.mpr hv, rfl, ?_⟩
    have hveq := lk_eq_of_mem hv hnd
    omega
  · rw [List.pairwise_iff_forall_sublist]
    intro p q hsub
    have hdesc : q.2 ≤ p.2 :=
      List.pairwise_iff_forall_sublist.mp (pairwise_sortByCountDesc _) hsub
    refine ⟨hdesc, ?_⟩
    intro htie
    have hnd_pairs : (symptomTypes entries).Nodup := List.Nodup.of_map Prod.fst hnd
    have hnd_sorted : (sortByCountDesc (symptomTypes entries)).Nodup :=
      (perm_sortByCountDesc _).nodup_iff.mpr hnd_pairs
    have hpq : p ≠ q := by
      have h2 := List.Nodup.sublist hsub hnd_sorted
      simp at h2
      exact h2
    have hp_mem : p ∈ symptomTypes entries :=
      mem_sortByCountDesc.mp (hsub.subset (by simp))
    have hq_mem : q ∈ symptomTypes entries :=
      mem_sortByCountDesc.mp (hsub.subset (by simp))
    rcases pair_sublist_total hp_mem hq_mem hpq with hord | hord
    · have hkeys := hord.map Prod.fst
      rw [keys_symptomTypes] at hkeys
      simpa using hkeys
    · have hswap : [q, p].Sublist (sortByCountDesc (symptomTypes entries)) :=
        stable_sortByCountDesc hord (by omega)
      exact absurd (pair_sublist_antisym hnd_sorted hsub hswap) hpq

theorem fallback_top_symptom_categories_witness :
    (∃ c : SymCat, ("back pain", (2 : Nat)).1 = catName c ∧
        ("back pain", (2 : Nat)).2 =
          ([⟨"back pain", "monitor", 0⟩, ⟨"Fever and back pain", "monitor", 1⟩] :
              List SymptomRecord).countP (fun e => catTrigger c e) ∧
        0 < ("back pain", (2 : Nat)).2) ∧
      (∃ p ∈ sortByCountDesc (symptomTypes
            [⟨"back pain", "monitor", 0⟩, ⟨"Fever and back pain", "monitor", 1⟩]),
        p.1 = catName SymCat.feverCat ∧
        p.2 = ([⟨"back pain", "monitor", 0⟩, ⟨"Fever and back pain", "monitor", 1⟩] :
            List SymptomRecord).countP (fun e => catTrigger SymCat.feverCat e)) ∧
      (topSymptoms [⟨"back pain", "monitor", 0⟩, ⟨"Fever and back pain", "monitor", 1⟩]).length ≤ 3 :=
  ⟨(fallback_top_symptom_categories
      [⟨"back pain", "monitor", 0⟩, ⟨"Fever and back pain", "monitor", 1⟩]).2.2.1
      ("back pain", 2) (by decide),
   (fallback_top_symptom_categories
      [⟨"back pain", "monitor", 0⟩, ⟨"Fever and back pain", "monitor", 1⟩]).2.2.2.1
      SymCat.feverCat (by decide),
   (fallback_top_symptom_categories
      [⟨"back pain", "monitor", 0⟩, ⟨"Fever and back pain", "monitor", 1⟩]).2.1⟩

end Shifai
